import Mathlib

/-!
# The libev binding of the getdns event-loop contract

A shallow embedding of `src/extension/libev.c`: the attach entry point
`getdns_extension_set_libev_loop`, the capability table `getdns_libev_vmt`, and the
three operations `getdns_libev_schedule_read`, `getdns_libev_schedule_timeout` and
`getdns_libev_clear_event`, written as state-passing functions over an explicit
`World` (heap, allocator, reactor registrations and a log of the calls made to
collaborators).

Pointers are `Option Addr` (`none` is `NULL`).  A C function that can hit undefined
behaviour or a failing `assert` returns `none` for its result.
-/

namespace Libev

/-- Address of an object in memory. -/
abbrev Addr := Nat

/-- A C pointer: `none` is `NULL`. -/
abbrev Ptr := Option Addr

/-- Modelled from the spec: the result codes of `getdns_return_t` (declared in
`getdns.h`, not under src/).  `GOOD` is the zero code, the only one that is false in
`if ((r = ...))`; `OTHER` stands for the remaining codes of the enumeration. -/
inductive getdns_return_t
  | GOOD
  | BAD_CONTEXT
  | INVALID_PARAMETER
  | MEMORY_ERROR
  | OTHER (code : Nat)
  deriving DecidableEq

/-- Modelled from the spec: `struct mem_funcs` (declared in `types-internal.h`, not
under src/), the allocator a context carries; only its identity matters here. -/
structure mem_funcs where
  tag : Nat
  deriving DecidableEq

/-- The functions of `libev.c` that are stored in function-pointer tables. -/
inductive Fn
  | getdns_libev_cleanup
  | getdns_libev_schedule_read
  | getdns_libev_schedule_timeout
  | getdns_libev_clear_event
  deriving DecidableEq

/-- The static table `getdns_libev_vmt` (libev.c lines 64-70), in initialiser order. -/
def getdns_libev_vmt : List Fn :=
  [Fn.getdns_libev_cleanup,
   Fn.getdns_libev_schedule_read,
   Fn.getdns_libev_clear_event,
   Fn.getdns_libev_schedule_timeout,
   Fn.getdns_libev_clear_event]

/-- The record `struct getdns_libev` (libev.c lines 50-54).  `vmt` points at a static
table, which is identified with the table it points at. -/
structure getdns_libev where
  vmt : List Fn
  loop : Ptr
  mf : mem_funcs
  deriving DecidableEq

/-- Modelled from the spec: the watcher record `getdns_eventloop_event` (declared in
`getdns_extra.h`, not under src/), with the four fields `libev.c` reads or writes.
Callbacks are function pointers (`none` is `NULL`), `ev` is the reactor handle. -/
structure getdns_eventloop_event where
  userarg : Nat
  read_cb : Option Nat
  timeout_cb : Option Nat
  ev : Ptr
  deriving DecidableEq

/-- What a heap allocation holds: an `io_timer` pair (libev.c lines 118-121), a
`getdns_libev` record whose fields have been written, or memory not yet written. -/
inductive Obj
  | io_timer
  | binding (r : getdns_libev)
  | raw
  deriving DecidableEq

/-- A started readiness watch: the `ev_io` member of the `io_timer` at address `w`,
watching `fd` for `EV_READ` on `loop`, with `data` the back-reference to the watcher
record. -/
structure ev_io where
  loop : Ptr
  w : Addr
  fd : Int
  data : Addr
  deriving DecidableEq

/-- A started one-shot timer: the `ev_timer` member of the `io_timer` at address `w`.
`ms` is the `timeout` argument in milliseconds; libev is handed `timeout / 1000`
seconds as an `ev_tstamp`, with repeat `0`. -/
structure ev_timer where
  loop : Ptr
  w : Addr
  ms : Nat
  data : Addr
  deriving DecidableEq

/-- The value of the `getdns_eventloop *` argument that attach passes to
`getdns_context_set_eventloop`: either the address of a heap record, or the address of
attach's own local variable `ext` (the expression `&ext`). -/
inductive eventloop_ptr
  | record (a : Addr)
  | addr_of_ext
  deriving DecidableEq

/-- One call made to a collaborator (allocator, reactor, context), as logged. -/
inductive Call
  | malloc (mf : mem_funcs) (result : Ptr)
  | free (mf : mem_funcs) (p : Addr)
  | ev_io_start (loop : Ptr) (w : Addr) (fd : Int)
  | ev_timer_start (loop : Ptr) (w : Addr) (ms : Nat)
  | ev_io_stop (loop : Ptr) (w : Addr)
  | ev_timer_stop (loop : Ptr) (w : Addr)
  | detach_eventloop
  | set_eventloop (arg : eventloop_ptr)
  deriving DecidableEq

/-- The world outside the call: live heap allocations, the allocator's next fresh
address and the number of allocations that will still succeed, the readiness watches
and timers armed on the reactor, and the log of calls so far. -/
structure World where
  heap : List (Addr × Obj)
  next : Addr
  budget : Nat
  ios : List ev_io
  timers : List ev_timer
  log : List Call
  deriving DecidableEq

/-- Modelled from the spec: the macro `GETDNS_MALLOC` (declared in `types-internal.h`,
not under src/): the allocation may fail, giving `NULL`; otherwise it gives a fresh
address holding unwritten memory. -/
def GETDNS_MALLOC (mf : mem_funcs) (w : World) : Ptr × World :=
  if w.budget = 0 then
    (none, { w with log := w.log ++ [Call.malloc mf none] })
  else
    (some w.next,
     { w with
       heap := w.heap ++ [(w.next, Obj.raw)]
       next := w.next + 1
       budget := w.budget - 1
       log := w.log ++ [Call.malloc mf (some w.next)] })

/-- Modelled from the spec: the macro `GETDNS_FREE` (declared in `types-internal.h`,
not under src/): releases the allocation at `p`. -/
def GETDNS_FREE (mf : mem_funcs) (p : Addr) (w : World) : World :=
  { w with
    heap := w.heap.filter (fun x => x.1 ≠ p)
    log := w.log ++ [Call.free mf p] }

/-- Writes object `o` into the allocation at address `a`. -/
def store (a : Addr) (o : Obj) (w : World) : World :=
  { w with heap := w.heap.map (fun x => if x.1 = a then (a, o) else x) }

/-- Modelled from the spec: libev's `ev_io_init` followed by `ev_io_start` on the `io`
member of the `io_timer` at `a`: the watch was just initialised, so it is inactive and
starting it arms it on the reactor. -/
def ev_io_start (loop : Ptr) (a : Addr) (fd : Int) (data : Addr) (w : World) : World :=
  { w with
    ios := w.ios ++ [{ loop := loop, w := a, fd := fd, data := data }]
    log := w.log ++ [Call.ev_io_start loop a fd] }

/-- Modelled from the spec: libev's `ev_timer_init` followed by `ev_timer_start` on the
`timer` member of the `io_timer` at `a`. -/
def ev_timer_start (loop : Ptr) (a : Addr) (ms : Nat) (data : Addr) (w : World) : World :=
  { w with
    timers := w.timers ++ [{ loop := loop, w := a, ms := ms, data := data }]
    log := w.log ++ [Call.ev_timer_start loop a ms] }

/-- Modelled from the spec: libev's `ev_io_stop` on the `io` member of the `io_timer`
at `a`: the watch is no longer armed afterwards. -/
def ev_io_stop (loop : Ptr) (a : Addr) (w : World) : World :=
  { w with
    ios := w.ios.filter (fun x => x.w ≠ a)
    log := w.log ++ [Call.ev_io_stop loop a] }

/-- Modelled from the spec: libev's `ev_timer_stop` on the `timer` member of the
`io_timer` at `a`. -/
def ev_timer_stop (loop : Ptr) (a : Addr) (w : World) : World :=
  { w with
    timers := w.timers.filter (fun x => x.w ≠ a)
    log := w.log ++ [Call.ev_timer_stop loop a] }

/-- The functions of the context module that attach calls (`context.c`, not under
src/), taken as parameters over an abstract context state `C`. -/
structure Externals (C : Type) where
  priv_getdns_context_mf : C → mem_funcs
  getdns_context_detach_eventloop : C → getdns_return_t × C
  getdns_context_set_eventloop : C → eventloop_ptr → getdns_return_t × C

/-- The result of attach: the code returned (`none` when the call does not return: a
write through `NULL`), the context afterwards and the world afterwards. -/
structure AttachResult (C : Type) where
  ret : Option getdns_return_t
  context : Option C
  world : World

/-- `getdns_extension_set_libev_loop` (libev.c lines 72-91). -/
def getdns_extension_set_libev_loop {C : Type} (X : Externals C)
    (context : Option C) (loop : Ptr) (w : World) : AttachResult C :=
  match context with
  | none => ⟨some getdns_return_t.BAD_CONTEXT, none, w⟩
  | some c =>
    match loop with
    | none => ⟨some getdns_return_t.INVALID_PARAMETER, some c, w⟩
    | some l =>
      let d := X.getdns_context_detach_eventloop c
      let w1 := { w with log := w.log ++ [Call.detach_eventloop] }
      if d.1 ≠ getdns_return_t.GOOD then ⟨some d.1, some d.2, w1⟩
      else
        let m := GETDNS_MALLOC (X.priv_getdns_context_mf d.2) w1
        match m.1 with
        | none => ⟨none, some d.2, m.2⟩
        | some ext =>
          let w3 := store ext
            (Obj.binding
              { vmt := getdns_libev_vmt, loop := some l, mf := X.priv_getdns_context_mf d.2 })
            m.2
          let s := X.getdns_context_set_eventloop d.2 eventloop_ptr.addr_of_ext
          ⟨some s.1, some s.2,
           { w3 with log := w3.log ++ [Call.set_eventloop eventloop_ptr.addr_of_ext] }⟩

/-- `getdns_libev_cleanup` (libev.c lines 93-100); `a` is the address of the binding
record `ext`. -/
def getdns_libev_cleanup (a : Addr) (ext : getdns_libev) (w : World) :
    getdns_return_t × World :=
  (getdns_return_t.GOOD, GETDNS_FREE ext.mf a w)

/-- The result of a scheduling call: the code returned, the watcher record afterwards
and the world afterwards. -/
structure SchedResult where
  ret : getdns_return_t
  el_ev : getdns_eventloop_event
  world : World
  deriving DecidableEq

/-- `getdns_libev_schedule_read` (libev.c lines 123-157).  `ext` is the binding record
the `loop` argument points at, `p` the address of the watcher record `el_ev`, and
`TIMEOUT_FOREVER` the sentinel of `types-internal.h` (not under src/), as the value it
has when compared with the `uint64_t` argument `timeout`. -/
def getdns_libev_schedule_read (TIMEOUT_FOREVER : Nat) (ext : getdns_libev)
    (fd : Int) (timeout : Nat) (p : Addr) (el_ev : getdns_eventloop_event) (w : World) :
    SchedResult :=
  let e1 := if fd < 0 then { el_ev with read_cb := none } else el_ev
  let e2 := if timeout = TIMEOUT_FOREVER then { e1 with timeout_cb := none } else e1
  if e2.read_cb = none ∧ e2.timeout_cb = none then
    ⟨getdns_return_t.GOOD, e2, w⟩
  else
    let m := GETDNS_MALLOC ext.mf w
    match m.1 with
    | none => ⟨getdns_return_t.MEMORY_ERROR, e2, m.2⟩
    | some my_ev =>
      let w1 := store my_ev Obj.io_timer m.2
      let e3 := { e2 with ev := some my_ev }
      let w2 := if e3.read_cb ≠ none then ev_io_start ext.loop my_ev fd p w1 else w1
      let w3 := if e3.timeout_cb ≠ none then ev_timer_start ext.loop my_ev timeout p w2 else w2
      ⟨getdns_return_t.GOOD, e3, w3⟩

/-- `getdns_libev_schedule_timeout` (libev.c lines 159-164). -/
def getdns_libev_schedule_timeout (TIMEOUT_FOREVER : Nat) (ext : getdns_libev)
    (timeout : Nat) (p : Addr) (el_ev : getdns_eventloop_event) (w : World) :
    SchedResult :=
  getdns_libev_schedule_read TIMEOUT_FOREVER ext (-1) timeout p el_ev w

/-- `getdns_libev_clear_event` (libev.c lines 166-183); `none` when `assert(my_ev)`
fails. -/
def getdns_libev_clear_event (ext : getdns_libev) (el_ev : getdns_eventloop_event)
    (w : World) : Option SchedResult :=
  match el_ev.ev with
  | none => none
  | some my_ev =>
    let w1 := if el_ev.read_cb ≠ none then ev_io_stop ext.loop my_ev w else w
    let w2 := if el_ev.timeout_cb ≠ none then ev_timer_stop ext.loop my_ev w1 else w1
    let w3 := GETDNS_FREE ext.mf my_ev w2
    some ⟨getdns_return_t.GOOD, { el_ev with ev := none }, w3⟩

/-! ## Concrete inputs used by the evaluation theorems -/

/-- The all-ones 64-bit value, used as the sentinel in concrete evaluations. -/
def forever64 : Nat := 2 ^ 64 - 1

/-- A binding record on loop `1` with allocator `0`. -/
def ext0 : getdns_libev :=
  { vmt := getdns_libev_vmt, loop := some 1, mf := { tag := 0 } }

/-- A world with nothing allocated and nothing armed, in which `n` allocations
succeed; fresh addresses start at `100`. -/
def emptyWorld (n : Nat) : World :=
  { heap := [], next := 100, budget := n, ios := [], timers := [], log := [] }

/-- The world attach leaves behind: the binding record `ext0` live at address `100`,
nothing armed, `n` allocations still succeed and fresh addresses start at `101`. -/
def attachedWorld (n : Nat) : World :=
  { heap := [(100, Obj.binding ext0)], next := 101, budget := n, ios := [], timers := [],
    log := [] }

/-- A watcher record with no callbacks and a null reactor handle. -/
def evNone : getdns_eventloop_event :=
  { userarg := 9, read_cb := none, timeout_cb := none, ev := none }

/-- A watcher record with only a read callback and a null reactor handle. -/
def evRead : getdns_eventloop_event :=
  { userarg := 9, read_cb := some 11, timeout_cb := none, ev := none }

/-- A watcher record with both callbacks and a null reactor handle. -/
def evBoth : getdns_eventloop_event :=
  { userarg := 9, read_cb := some 11, timeout_cb := some 12, ev := none }

/-- A context module over a one-field context state (the number of the attached event
loop, `0` for none): detach returns `dret` and clears the attachment, set returns
`GOOD` and records an attachment. -/
def ctxModule (dret : getdns_return_t) : Externals Nat :=
  { priv_getdns_context_mf := fun _ => { tag := 0 }
    getdns_context_detach_eventloop := fun _ => (dret, 0)
    getdns_context_set_eventloop := fun c _ => (getdns_return_t.GOOD, c + 1) }

/-! ## The paths of schedule_read -/

/-- The watcher record after lines 133-134 of libev.c: the read callback is dropped
when the descriptor is negative, the timeout callback when the timeout is the
sentinel. -/
def rewritten (T : Nat) (fd : Int) (timeout : Nat) (e : getdns_eventloop_event) :
    getdns_eventloop_event :=
  { e with
    read_cb := if fd < 0 then none else e.read_cb
    timeout_cb := if timeout = T then none else e.timeout_cb }

/-- The world after a successful allocation at `w.next` followed by the starts for the
callbacks present in `e`. -/
def armedWorld (ext : getdns_libev) (fd : Int) (timeout : Nat) (p : Addr)
    (e : getdns_eventloop_event) (w : World) : World :=
  { heap := (w.heap ++ [(w.next, Obj.raw)]).map
      (fun x => if x.1 = w.next then (w.next, Obj.io_timer) else x)
    next := w.next + 1
    budget := w.budget - 1
    ios := w.ios ++
      (if e.read_cb ≠ none then [{ loop := ext.loop, w := w.next, fd := fd, data := p }]
       else [])
    timers := w.timers ++
      (if e.timeout_cb ≠ none then
        [{ loop := ext.loop, w := w.next, ms := timeout, data := p }]
       else [])
    log := w.log ++ [Call.malloc ext.mf (some w.next)] ++
      (if e.read_cb ≠ none then [Call.ev_io_start ext.loop w.next fd] else []) ++
      (if e.timeout_cb ≠ none then [Call.ev_timer_start ext.loop w.next timeout] else []) }

theorem rewritten_eq (T : Nat) (fd : Int) (timeout : Nat) (e : getdns_eventloop_event) :
    (if timeout = T then
        { (if fd < 0 then { e with read_cb := none } else e) with timeout_cb := none }
      else (if fd < 0 then { e with read_cb := none } else e))
      = rewritten T fd timeout e := by
  by_cases h1 : fd < 0 <;> by_cases h2 : timeout = T <;> simp [rewritten, h1, h2]

/-- Path 1: nothing survives the rewriting, the call is a no-op. -/
theorem schedule_read_noop_path (T : Nat) (ext : getdns_libev) (fd : Int)
    (timeout : Nat) (p : Addr) (e : getdns_eventloop_event) (w : World)
    (h : (rewritten T fd timeout e).read_cb = none
      ∧ (rewritten T fd timeout e).timeout_cb = none) :
    getdns_libev_schedule_read T ext fd timeout p e w
      = ⟨getdns_return_t.GOOD, rewritten T fd timeout e, w⟩ := by
  unfold getdns_libev_schedule_read
  simp only [rewritten_eq]
  rw [if_pos h]

/-- Path 2: a callback survives and the allocation fails. -/
theorem schedule_read_nomem_path (T : Nat) (ext : getdns_libev) (fd : Int)
    (timeout : Nat) (p : Addr) (e : getdns_eventloop_event) (w : World)
    (h : ¬ ((rewritten T fd timeout e).read_cb = none
      ∧ (rewritten T fd timeout e).timeout_cb = none))
    (hb : w.budget = 0) :
    getdns_libev_schedule_read T ext fd timeout p e w
      = ⟨getdns_return_t.MEMORY_ERROR, rewritten T fd timeout e,
          { w with log := w.log ++ [Call.malloc ext.mf none] }⟩ := by
  unfold getdns_libev_schedule_read
  simp only [rewritten_eq]
  rw [if_neg h]
  simp [GETDNS_MALLOC, hb]

/-- Path 3: a callback survives and the allocation succeeds. -/
theorem schedule_read_armed_path (T : Nat) (ext : getdns_libev) (fd : Int)
    (timeout : Nat) (p : Addr) (e : getdns_eventloop_event) (w : World)
    (h : ¬ ((rewritten T fd timeout e).read_cb = none
      ∧ (rewritten T fd timeout e).timeout_cb = none))
    (hb : w.budget ≠ 0) :
    getdns_libev_schedule_read T ext fd timeout p e w
      = ⟨getdns_return_t.GOOD, { rewritten T fd timeout e with ev := some w.next },
          armedWorld ext fd timeout p (rewritten T fd timeout e) w⟩ := by
  unfold getdns_libev_schedule_read
  simp only [rewritten_eq]
  rw [if_neg h]
  by_cases hr : (rewritten T fd timeout e).read_cb = none <;>
    by_cases ht : (rewritten T fd timeout e).timeout_cb = none <;>
    simp [GETDNS_MALLOC, hb, hr, ht, armedWorld, store, ev_io_start, ev_timer_start]

/-- A callback survives the rewriting iff the read callback is present with a
non-negative descriptor or the timeout callback is present with a real timeout. -/
theorem survives_iff (T : Nat) (fd : Int) (timeout : Nat) (e : getdns_eventloop_event) :
    ¬ ((rewritten T fd timeout e).read_cb = none
        ∧ (rewritten T fd timeout e).timeout_cb = none)
      ↔ ((0 ≤ fd ∧ e.read_cb ≠ none) ∨ (timeout ≠ T ∧ e.timeout_cb ≠ none)) := by
  by_cases h1 : fd < 0 <;> by_cases h2 : timeout = T <;>
    (simp [rewritten, h1, h2, not_le.mpr, le_of_not_lt]; try tauto)

/-- Freeing address `n` after a store at `n` leaves the allocations at other addresses,
each with the contents it had. -/
theorem filter_map_store (n : Addr) (o : Obj) (l : List (Addr × Obj)) :
    (l.map (fun x => if x.1 = n then (n, o) else x)).filter (fun x => x.1 ≠ n)
      = l.filter (fun x => x.1 ≠ n) := by
  induction l with
  | nil => rfl
  | cons x t ih =>
    by_cases hx : x.1 = n
    · simp only [List.map_cons, hx, if_true]
      rw [List.filter_cons_of_neg (by simp), List.filter_cons_of_neg (by simp [hx])]
      exact ih
    · simp only [List.map_cons, hx, if_false]
      rw [List.filter_cons_of_pos (by simp [hx]), List.filter_cons_of_pos (by simp [hx]), ih]

/-! ## Theorems -/

/-- C1: attach returns `BAD_CONTEXT` whenever the context is null (whatever the loop
is) and `INVALID_PARAMETER` whenever the context is non-null and the loop is null; in
both cases the world (heap, reactor, log of calls) and the context are untouched, so
nothing is detached, allocated or installed. -/
theorem attach_null_arguments {C : Type} (X : Externals C) (c : C) (loop : Ptr)
    (w : World) :
    (getdns_extension_set_libev_loop X none loop w).ret
        = some getdns_return_t.BAD_CONTEXT
      ∧ (getdns_extension_set_libev_loop X none loop w).world = w
      ∧ (getdns_extension_set_libev_loop X none loop w).context = none
      ∧ (getdns_extension_set_libev_loop X (some c) none w).ret
        = some getdns_return_t.INVALID_PARAMETER
      ∧ (getdns_extension_set_libev_loop X (some c) none w).world = w
      ∧ (getdns_extension_set_libev_loop X (some c) none w).context = some c := by
  simp [getdns_extension_set_libev_loop]

/-- C2 (as stated, refuted): with both callbacks absent and descriptor `-1` the call
does not return `INVALID_PARAMETER`. -/
theorem schedule_read_absent_negative_not_invalid :
    evNone.read_cb = none ∧ evNone.timeout_cb = none ∧ ((-1 : Int) < 0)
      ∧ (getdns_libev_schedule_read forever64 ext0 (-1) 100 7 evNone (emptyWorld 1)).ret
        ≠ getdns_return_t.INVALID_PARAMETER := by
  decide

/-- C2 (amended): for every call in which the read and timeout callbacks are both
absent and the descriptor is negative, schedule_read returns `GOOD`. -/
theorem schedule_read_absent_negative_good (T : Nat) (ext : getdns_libev) (fd : Int)
    (timeout : Nat) (p : Addr) (e : getdns_eventloop_event) (w : World)
    (hr : e.read_cb = none) (ht : e.timeout_cb = none) (hfd : fd < 0) :
    (getdns_libev_schedule_read T ext fd timeout p e w).ret = getdns_return_t.GOOD := by
  obtain ⟨ua, rc, tc, evp⟩ := e
  simp only at hr ht
  subst hr ht
  by_cases h2 : timeout = T <;> simp [getdns_libev_schedule_read, hfd, h2]

/-- Witness for the amended C2: the watcher without callbacks, descriptor `-1`. -/
theorem schedule_read_absent_negative_good_witness :
    evNone.read_cb = none ∧ evNone.timeout_cb = none ∧ ((-1 : Int) < 0)
      ∧ (getdns_libev_schedule_read forever64 ext0 (-1) 100 7 evNone (emptyWorld 1)).ret
        = getdns_return_t.GOOD :=
  ⟨rfl, rfl, by decide,
   schedule_read_absent_negative_good forever64 ext0 (-1) 100 7 evNone (emptyWorld 1)
    rfl rfl (by decide)⟩

/-- C3: for every descriptor and timeout, schedule_read on a watcher whose read and
timeout callbacks are both absent returns `GOOD` and changes nothing: the world
(armed watches, timers, heap, log of allocator calls) is the one it started from and
the watcher record, its reactor handle included, is unchanged. -/
theorem schedule_read_no_callbacks_noop (T : Nat) (ext : getdns_libev) (fd : Int)
    (timeout : Nat) (p : Addr) (e : getdns_eventloop_event) (w : World)
    (hr : e.read_cb = none) (ht : e.timeout_cb = none) :
    getdns_libev_schedule_read T ext fd timeout p e w
      = { ret := getdns_return_t.GOOD, el_ev := e, world := w } := by
  obtain ⟨ua, rc, tc, evp⟩ := e
  simp only at hr ht
  subst hr ht
  by_cases h1 : fd < 0 <;> by_cases h2 : timeout = T <;>
    simp [getdns_libev_schedule_read, h1, h2]

/-- Witness for C3: the watcher without callbacks on the valid descriptor `5`. -/
theorem schedule_read_no_callbacks_noop_witness :
    evNone.read_cb = none ∧ evNone.timeout_cb = none
      ∧ getdns_libev_schedule_read forever64 ext0 5 100 7 evNone (emptyWorld 1)
        = { ret := getdns_return_t.GOOD, el_ev := evNone, world := emptyWorld 1 } :=
  ⟨rfl, rfl,
   schedule_read_no_callbacks_noop forever64 ext0 5 100 7 evNone (emptyWorld 1) rfl rfl⟩

/-- C4 (as stated, refuted): a watcher with a read callback, scheduled with
descriptor `-1` on an empty reactor: schedule_read succeeds, and the clear that
follows fails its assertion that the handle is non-null. -/
theorem schedule_then_clear_assertion_fails :
    (evRead.read_cb ≠ none ∨ evRead.timeout_cb ≠ none)
      ∧ (emptyWorld 1).ios = [] ∧ (emptyWorld 1).timers = [] ∧ (emptyWorld 1).heap = []
      ∧ (getdns_libev_schedule_read forever64 ext0 (-1) 100 7 evRead (emptyWorld 1)).ret
          = getdns_return_t.GOOD
      ∧ getdns_libev_clear_event ext0
          (getdns_libev_schedule_read forever64 ext0 (-1) 100 7 evRead (emptyWorld 1)).el_ev
          (getdns_libev_schedule_read forever64 ext0 (-1) 100 7 evRead (emptyWorld 1)).world
          = none := by
  decide

/-- C4 (amended): when a callback survives the rewriting (read callback present with
a non-negative descriptor, or timeout callback present with a timeout other than
`TIMEOUT_FOREVER`), then from a reactor with no registrations (no armed readiness
watch, no armed timer, no live `io_timer` allocation; other allocations, such as the
binding record, may be live) a successful schedule_read followed immediately by clear
on the same watcher returns `GOOD` and leaves no armed readiness watch, no armed timer
and no live `io_timer` allocation: the heap is the initial one without the address
that was allocated and freed; the handle is null again. -/
theorem schedule_then_clear_leaves_nothing (T : Nat) (ext : getdns_libev) (fd : Int)
    (timeout : Nat) (p : Addr) (e : getdns_eventloop_event) (w : World)
    (hcb : (0 ≤ fd ∧ e.read_cb ≠ none) ∨ (timeout ≠ T ∧ e.timeout_cb ≠ none))
    (hios : w.ios = []) (htim : w.timers = [])
    (hheap : ∀ x ∈ w.heap, x.2 ≠ Obj.io_timer)
    (hok : (getdns_libev_schedule_read T ext fd timeout p e w).ret = getdns_return_t.GOOD) :
    ∃ r : SchedResult,
      getdns_libev_clear_event ext
          (getdns_libev_schedule_read T ext fd timeout p e w).el_ev
          (getdns_libev_schedule_read T ext fd timeout p e w).world = some r
        ∧ r.ret = getdns_return_t.GOOD
        ∧ r.world.ios = [] ∧ r.world.timers = []
        ∧ (∀ x ∈ r.world.heap, x.2 ≠ Obj.io_timer)
        ∧ r.world.heap = w.heap.filter (fun x => x.1 ≠ w.next)
        ∧ r.el_ev.ev = none := by
  have hs := (survives_iff T fd timeout e).mpr hcb
  have hfilter : ((w.heap ++ [(w.next, Obj.raw)]).map
        (fun x => if x.1 = w.next then (w.next, Obj.io_timer) else x)).filter
        (fun x => x.1 ≠ w.next) = w.heap.filter (fun x => x.1 ≠ w.next) := by
    rw [filter_map_store, List.filter_append]
    simp
  have hclean : ∀ x ∈ w.heap.filter (fun x => x.1 ≠ w.next), x.2 ≠ Obj.io_timer :=
    fun x hx => hheap x (List.mem_of_mem_filter hx)
  by_cases hb : w.budget = 0
  · rw [schedule_read_nomem_path T ext fd timeout p e w hs hb] at hok
    simp at hok
  · rw [schedule_read_armed_path T ext fd timeout p e w hs hb]
    by_cases hr : (rewritten T fd timeout e).read_cb = none <;>
      by_cases ht : (rewritten T fd timeout e).timeout_cb = none <;>
      refine ⟨_, by simp only [getdns_libev_clear_event]; rfl, rfl, ?_, ?_, ?_, ?_, rfl⟩ <;>
      first
        | (simp [armedWorld, GETDNS_FREE, ev_io_stop, ev_timer_stop, hr, ht, hios, htim]; done)
        | (simp only [armedWorld, GETDNS_FREE, ev_io_stop, ev_timer_stop, hr, ht,
            ne_eq, not_true_eq_false, not_false_eq_true, if_true, if_false]
           first
             | exact hfilter
             | (rw [hfilter]; exact hclean))

/-- Witness for the amended C4: a read-and-timeout watcher on descriptor `5` with a
timeout of 100 ms, scheduled and cleared in the world attach leaves, where the binding
record is live. -/
theorem schedule_then_clear_leaves_nothing_witness :
    (((0 : Int) ≤ 5 ∧ evBoth.read_cb ≠ none) ∨ (100 ≠ forever64 ∧ evBoth.timeout_cb ≠ none))
    ∧ (attachedWorld 1).ios = [] ∧ (attachedWorld 1).timers = []
    ∧ (∀ x ∈ (attachedWorld 1).heap, x.2 ≠ Obj.io_timer)
    ∧ (getdns_libev_schedule_read forever64 ext0 5 100 7 evBoth (attachedWorld 1)).ret
        = getdns_return_t.GOOD
    ∧ ∃ r : SchedResult,
      getdns_libev_clear_event ext0
          (getdns_libev_schedule_read forever64 ext0 5 100 7 evBoth (attachedWorld 1)).el_ev
          (getdns_libev_schedule_read forever64 ext0 5 100 7 evBoth (attachedWorld 1)).world
          = some r
        ∧ r.ret = getdns_return_t.GOOD
        ∧ r.world.ios = [] ∧ r.world.timers = []
        ∧ (∀ x ∈ r.world.heap, x.2 ≠ Obj.io_timer)
        ∧ r.world.heap = (attachedWorld 1).heap.filter (fun x => x.1 ≠ (attachedWorld 1).next)
        ∧ r.el_ev.ev = none :=
  ⟨Or.inl (by decide), rfl, rfl, by decide, by decide,
   schedule_then_clear_leaves_nothing forever64 ext0 5 100 7 evBoth (attachedWorld 1)
    (Or.inl (by decide)) rfl rfl (by decide) (by decide)⟩

/-- C5: when the `io_timer` allocation fails inside schedule_read (a callback
survives the rewriting, so the allocator is reached, and the allocator has no
allocation left to give), the call returns `MEMORY_ERROR`, the armed readiness
watches, the armed timers and the heap are what they were, the only call made is the
failed allocation (no watch is started), and the watcher's reactor handle is
unchanged; the same holds for schedule_timeout. -/
theorem schedule_alloc_failure_all_or_nothing (T : Nat) (ext : getdns_libev) (fd : Int)
    (timeout : Nat) (p : Addr) (e : getdns_eventloop_event) (w : World)
    (hb : w.budget = 0) :
    (((0 ≤ fd ∧ e.read_cb ≠ none) ∨ (timeout ≠ T ∧ e.timeout_cb ≠ none)) →
        (getdns_libev_schedule_read T ext fd timeout p e w).ret
            = getdns_return_t.MEMORY_ERROR
          ∧ (getdns_libev_schedule_read T ext fd timeout p e w).world.ios = w.ios
          ∧ (getdns_libev_schedule_read T ext fd timeout p e w).world.timers = w.timers
          ∧ (getdns_libev_schedule_read T ext fd timeout p e w).world.heap = w.heap
          ∧ (getdns_libev_schedule_read T ext fd timeout p e w).world.log
            = w.log ++ [Call.malloc ext.mf none]
          ∧ (getdns_libev_schedule_read T ext fd timeout p e w).el_ev.ev = e.ev)
      ∧ ((timeout ≠ T ∧ e.timeout_cb ≠ none) →
        (getdns_libev_schedule_timeout T ext timeout p e w).ret
            = getdns_return_t.MEMORY_ERROR
          ∧ (getdns_libev_schedule_timeout T ext timeout p e w).world.ios = w.ios
          ∧ (getdns_libev_schedule_timeout T ext timeout p e w).world.timers = w.timers
          ∧ (getdns_libev_schedule_timeout T ext timeout p e w).world.heap = w.heap
          ∧ (getdns_libev_schedule_timeout T ext timeout p e w).world.log
            = w.log ++ [Call.malloc ext.mf none]
          ∧ (getdns_libev_schedule_timeout T ext timeout p e w).el_ev.ev = e.ev) := by
  have key : ∀ fd : Int,
      ((0 ≤ fd ∧ e.read_cb ≠ none) ∨ (timeout ≠ T ∧ e.timeout_cb ≠ none)) →
        (getdns_libev_schedule_read T ext fd timeout p e w).ret
            = getdns_return_t.MEMORY_ERROR
          ∧ (getdns_libev_schedule_read T ext fd timeout p e w).world.ios = w.ios
          ∧ (getdns_libev_schedule_read T ext fd timeout p e w).world.timers = w.timers
          ∧ (getdns_libev_schedule_read T ext fd timeout p e w).world.heap = w.heap
          ∧ (getdns_libev_schedule_read T ext fd timeout p e w).world.log
            = w.log ++ [Call.malloc ext.mf none]
          ∧ (getdns_libev_schedule_read T ext fd timeout p e w).el_ev.ev = e.ev := by
    intro fd hcb
    have hs := (survives_iff T fd timeout e).mpr hcb
    rw [schedule_read_nomem_path T ext fd timeout p e w hs hb]
    exact ⟨rfl, rfl, rfl, rfl, rfl, rfl⟩
  exact ⟨key fd, fun h => key (-1) (Or.inr h)⟩

/-- Witness for C5: a read-and-timeout watcher scheduled, in the world attach leaves,
when no allocation can succeed. -/
theorem schedule_alloc_failure_all_or_nothing_witness :
    (attachedWorld 0).budget = 0
    ∧ ((((0 : Int) ≤ 5 ∧ evBoth.read_cb ≠ none)
        ∨ (100 ≠ forever64 ∧ evBoth.timeout_cb ≠ none))
      ∧ (getdns_libev_schedule_read forever64 ext0 5 100 7 evBoth (attachedWorld 0)).ret
          = getdns_return_t.MEMORY_ERROR
        ∧ (getdns_libev_schedule_read forever64 ext0 5 100 7 evBoth (attachedWorld 0)).world.ios = (attachedWorld 0).ios
        ∧ (getdns_libev_schedule_read forever64 ext0 5 100 7 evBoth (attachedWorld 0)).world.timers = (attachedWorld 0).timers
        ∧ (getdns_libev_schedule_read forever64 ext0 5 100 7 evBoth (attachedWorld 0)).world.heap = (attachedWorld 0).heap
        ∧ (getdns_libev_schedule_read forever64 ext0 5 100 7 evBoth (attachedWorld 0)).world.log
          = (attachedWorld 0).log ++ [Call.malloc ext0.mf none]
        ∧ (getdns_libev_schedule_read forever64 ext0 5 100 7 evBoth (attachedWorld 0)).el_ev.ev = evBoth.ev)
    ∧ ((100 ≠ forever64 ∧ evBoth.timeout_cb ≠ none)
      ∧ (getdns_libev_schedule_timeout forever64 ext0 100 7 evBoth (attachedWorld 0)).ret
          = getdns_return_t.MEMORY_ERROR
        ∧ (getdns_libev_schedule_timeout forever64 ext0 100 7 evBoth (attachedWorld 0)).world.ios = (attachedWorld 0).ios
        ∧ (getdns_libev_schedule_timeout forever64 ext0 100 7 evBoth (attachedWorld 0)).world.timers = (attachedWorld 0).timers
        ∧ (getdns_libev_schedule_timeout forever64 ext0 100 7 evBoth (attachedWorld 0)).world.heap = (attachedWorld 0).heap
        ∧ (getdns_libev_schedule_timeout forever64 ext0 100 7 evBoth (attachedWorld 0)).world.log
          = (attachedWorld 0).log ++ [Call.malloc ext0.mf none]
        ∧ (getdns_libev_schedule_timeout forever64 ext0 100 7 evBoth (attachedWorld 0)).el_ev.ev = evBoth.ev) :=
  ⟨rfl,
   ⟨Or.inl (by decide),
    (schedule_alloc_failure_all_or_nothing forever64 ext0 5 100 7 evBoth (attachedWorld 0)
      rfl).1 (Or.inl (by decide))⟩,
   ⟨by decide,
    (schedule_alloc_failure_all_or_nothing forever64 ext0 5 100 7 evBoth (attachedWorld 0)
      rfl).2 (by decide)⟩⟩

/-- C6: when allocation succeeds, schedule_read returns `GOOD` and arms exactly a
readiness watch on the descriptor iff the descriptor is non-negative and the read
callback is present, and a timer iff the timeout is not `TIMEOUT_FOREVER` and the
timeout callback is present; schedule_timeout arms no readiness watch and the same
timer.  Hence with a negative descriptor or no read callback no readiness watch is
armed, and with the sentinel no timer is armed. -/
theorem schedule_arms_exactly (T : Nat) (ext : getdns_libev) (fd : Int)
    (timeout : Nat) (p : Addr) (e : getdns_eventloop_event) (w : World)
    (hb : w.budget ≠ 0) :
    (getdns_libev_schedule_read T ext fd timeout p e w).ret = getdns_return_t.GOOD
      ∧ (getdns_libev_schedule_read T ext fd timeout p e w).world.ios
          = w.ios ++ (if 0 ≤ fd ∧ e.read_cb ≠ none then
              [{ loop := ext.loop, w := w.next, fd := fd, data := p }] else [])
      ∧ (getdns_libev_schedule_read T ext fd timeout p e w).world.timers
          = w.timers ++ (if timeout ≠ T ∧ e.timeout_cb ≠ none then
              [{ loop := ext.loop, w := w.next, ms := timeout, data := p }] else [])
      ∧ (getdns_libev_schedule_timeout T ext timeout p e w).ret = getdns_return_t.GOOD
      ∧ (getdns_libev_schedule_timeout T ext timeout p e w).world.ios = w.ios
      ∧ (getdns_libev_schedule_timeout T ext timeout p e w).world.timers
          = w.timers ++ (if timeout ≠ T ∧ e.timeout_cb ≠ none then
              [{ loop := ext.loop, w := w.next, ms := timeout, data := p }] else [])
      ∧ ((fd < 0 ∨ e.read_cb = none) →
          (getdns_libev_schedule_read T ext fd timeout p e w).world.ios = w.ios)
      ∧ (timeout = T →
          (getdns_libev_schedule_read T ext fd timeout p e w).world.timers = w.timers) := by
  have key : ∀ fd : Int,
      (getdns_libev_schedule_read T ext fd timeout p e w).ret = getdns_return_t.GOOD
      ∧ (getdns_libev_schedule_read T ext fd timeout p e w).world.ios
          = w.ios ++ (if 0 ≤ fd ∧ e.read_cb ≠ none then
              [{ loop := ext.loop, w := w.next, fd := fd, data := p }] else [])
      ∧ (getdns_libev_schedule_read T ext fd timeout p e w).world.timers
          = w.timers ++ (if timeout ≠ T ∧ e.timeout_cb ≠ none then
              [{ loop := ext.loop, w := w.next, ms := timeout, data := p }] else []) := by
    intro fd
    by_cases hs : (rewritten T fd timeout e).read_cb = none
        ∧ (rewritten T fd timeout e).timeout_cb = none
    · rw [schedule_read_noop_path T ext fd timeout p e w hs]
      by_cases h1 : fd < 0 <;> by_cases h2 : timeout = T <;>
        simp_all [rewritten, not_le.mpr, le_of_not_lt]
    · rw [schedule_read_armed_path T ext fd timeout p e w hs hb]
      by_cases h1 : fd < 0 <;> by_cases h2 : timeout = T <;>
        simp [armedWorld, rewritten, h1, h2, not_le.mpr, le_of_not_lt]
  obtain ⟨k1, k2, k3⟩ := key fd
  obtain ⟨t1, t2, t3⟩ := key (-1)
  refine ⟨k1, k2, k3, t1, ?_, t3, ?_, ?_⟩
  · simpa [getdns_libev_schedule_timeout] using t2
  · intro h
    rw [k2]
    rcases h with h | h
    · simp [not_le.mpr h]
    · simp [h]
  · intro h
    rw [k3]
    simp [h]

/-- Witness for C6: a read-and-timeout watcher on descriptor `5`, one allocation
available. -/
theorem schedule_arms_exactly_witness :
    (emptyWorld 1).budget ≠ 0
      ∧ (getdns_libev_schedule_read forever64 ext0 5 100 7 evBoth (emptyWorld 1)).world.ios
        = [{ loop := some 1, w := 100, fd := 5, data := 7 }]
      ∧ (getdns_libev_schedule_read forever64 ext0 5 100 7 evBoth (emptyWorld 1)).world.timers
        = [{ loop := some 1, w := 100, ms := 100, data := 7 }]
      ∧ (getdns_libev_schedule_timeout forever64 ext0 100 7 evBoth (emptyWorld 1)).world.ios
        = [] :=
  ⟨by decide,
   (schedule_arms_exactly forever64 ext0 5 100 7 evBoth (emptyWorld 1) (by decide)).2.1,
   (schedule_arms_exactly forever64 ext0 5 100 7 evBoth (emptyWorld 1) (by decide)).2.2.1,
   (schedule_arms_exactly forever64 ext0 5 100 7 evBoth (emptyWorld 1) (by decide)).2.2.2.2.1⟩

/-- C7: for every watcher whose reactor handle is non-null, clear returns `GOOD`; it
calls `ev_io_stop` iff the read callback is present and `ev_timer_stop` iff the timeout
callback is present, then frees the `io_timer` allocation once (the calls it makes are
exactly these, in this order); the handle is null afterwards and the callbacks and
`userarg` are unchanged. -/
theorem clear_event_effect (ext : getdns_libev) (e : getdns_eventloop_event)
    (w : World) (a : Addr) (ha : e.ev = some a) :
    ∃ r : SchedResult,
      getdns_libev_clear_event ext e w = some r
        ∧ r.ret = getdns_return_t.GOOD
        ∧ r.el_ev.ev = none
        ∧ r.el_ev.read_cb = e.read_cb
        ∧ r.el_ev.timeout_cb = e.timeout_cb
        ∧ r.el_ev.userarg = e.userarg
        ∧ r.world.log = w.log
            ++ (if e.read_cb ≠ none then [Call.ev_io_stop ext.loop a] else [])
            ++ (if e.timeout_cb ≠ none then [Call.ev_timer_stop ext.loop a] else [])
            ++ [Call.free ext.mf a]
        ∧ r.world.ios
            = (if e.read_cb ≠ none then w.ios.filter (fun x => x.w ≠ a) else w.ios)
        ∧ r.world.timers
            = (if e.timeout_cb ≠ none then w.timers.filter (fun x => x.w ≠ a) else w.timers)
        ∧ r.world.heap = w.heap.filter (fun x => x.1 ≠ a) := by
  obtain ⟨ua, rc, tc, evp⟩ := e
  simp only at ha
  subst ha
  cases rc <;> cases tc <;>
    simp [getdns_libev_clear_event, GETDNS_FREE, ev_io_stop, ev_timer_stop]

/-- Witness for C7: clearing the watcher that schedule_read armed
with both callbacks on descriptor `5`. -/
theorem clear_event_effect_witness :
    (getdns_libev_schedule_read forever64 ext0 5 100 7 evBoth (emptyWorld 1)).el_ev.ev
        = some 100
      ∧ ∃ r : SchedResult,
        getdns_libev_clear_event ext0
            (getdns_libev_schedule_read forever64 ext0 5 100 7 evBoth (emptyWorld 1)).el_ev
            (getdns_libev_schedule_read forever64 ext0 5 100 7 evBoth (emptyWorld 1)).world
            = some r
          ∧ r.ret = getdns_return_t.GOOD
          ∧ r.el_ev.ev = none :=
  ⟨by decide,
   (clear_event_effect ext0
      (getdns_libev_schedule_read forever64 ext0 5 100 7 evBoth (emptyWorld 1)).el_ev
      (getdns_libev_schedule_read forever64 ext0 5 100 7 evBoth (emptyWorld 1)).world
      100 (by decide)).imp (fun _ h => ⟨h.1, h.2.1, h.2.2.1⟩)⟩

/-- C8: in attach with non-null context and loop, the first call made is the detach
of the previous binding, so any allocation comes after it; and if that detach returns
an error then attach returns exactly that error, makes no further call (no allocation,
no `getdns_context_set_eventloop`), leaves the heap as it was and leaves the context
in the state detach left it. -/
theorem attach_detach_first {C : Type} (X : Externals C) (c : C) (l : Addr)
    (w : World) :
    (∃ rest : List Call,
        (getdns_extension_set_libev_loop X (some c) (some l) w).world.log
          = w.log ++ Call.detach_eventloop :: rest)
      ∧ ((X.getdns_context_detach_eventloop c).1 ≠ getdns_return_t.GOOD →
          (getdns_extension_set_libev_loop X (some c) (some l) w).ret
              = some (X.getdns_context_detach_eventloop c).1
            ∧ (getdns_extension_set_libev_loop X (some c) (some l) w).world.log
              = w.log ++ [Call.detach_eventloop]
            ∧ (getdns_extension_set_libev_loop X (some c) (some l) w).world.heap = w.heap
            ∧ (getdns_extension_set_libev_loop X (some c) (some l) w).context
              = some (X.getdns_context_detach_eventloop c).2) := by
  constructor
  · by_cases hd : (X.getdns_context_detach_eventloop c).1 = getdns_return_t.GOOD
    · by_cases hb : w.budget = 0
      · exact ⟨[Call.malloc (X.priv_getdns_context_mf (X.getdns_context_detach_eventloop c).2)
          none], by simp [getdns_extension_set_libev_loop, GETDNS_MALLOC, hd, hb]⟩
      · exact ⟨[Call.malloc (X.priv_getdns_context_mf (X.getdns_context_detach_eventloop c).2)
          (some w.next), Call.set_eventloop eventloop_ptr.addr_of_ext],
          by simp [getdns_extension_set_libev_loop, GETDNS_MALLOC, store, hd, hb]⟩
    · exact ⟨[], by simp [getdns_extension_set_libev_loop, hd]⟩
  · intro hd
    simp [getdns_extension_set_libev_loop, hd]

/-- Witness for C8: a context module whose detach returns an error
code. -/
theorem attach_detach_first_witness :
    ((ctxModule (getdns_return_t.OTHER 1)).getdns_context_detach_eventloop 5).1
        ≠ getdns_return_t.GOOD
      ∧ (getdns_extension_set_libev_loop (ctxModule (getdns_return_t.OTHER 1))
          (some 5) (some 1) (emptyWorld 1)).ret = some (getdns_return_t.OTHER 1)
      ∧ (getdns_extension_set_libev_loop (ctxModule (getdns_return_t.OTHER 1))
          (some 5) (some 1) (emptyWorld 1)).world.log = [Call.detach_eventloop] :=
  ⟨by decide,
   ((attach_detach_first (ctxModule (getdns_return_t.OTHER 1)) 5 1 (emptyWorld 1)).2
      (by decide)).1,
   ((attach_detach_first (ctxModule (getdns_return_t.OTHER 1)) 5 1 (emptyWorld 1)).2
      (by decide)).2.1⟩

/-- C9 (evaluation at the failing input): attach with a non-null context and loop,
a detach that succeeds and an allocation that succeeds.  The new record at address
`100` holds the libev table, the supplied loop and the context's memory functions, and
attach returns what `getdns_context_set_eventloop` returns, but the argument handed to
`getdns_context_set_eventloop` is `&ext`, the address of attach's local variable, and
not the record. -/
theorem attach_hands_address_of_local :
    (getdns_extension_set_libev_loop (ctxModule getdns_return_t.GOOD)
        (some 5) (some 1) (emptyWorld 1)).ret = some getdns_return_t.GOOD
      ∧ (getdns_extension_set_libev_loop (ctxModule getdns_return_t.GOOD)
          (some 5) (some 1) (emptyWorld 1)).world.heap
        = [(100, Obj.binding
            { vmt := getdns_libev_vmt, loop := some 1, mf := { tag := 0 } })]
      ∧ (getdns_extension_set_libev_loop (ctxModule getdns_return_t.GOOD)
          (some 5) (some 1) (emptyWorld 1)).world.log
        = [Call.detach_eventloop, Call.malloc { tag := 0 } (some 100),
            Call.set_eventloop eventloop_ptr.addr_of_ext]
      ∧ Call.set_eventloop (eventloop_ptr.record 100)
        ∉ (getdns_extension_set_libev_loop (ctxModule getdns_return_t.GOOD)
            (some 5) (some 1) (emptyWorld 1)).world.log := by
  decide

/-- C10: on every path schedule_read leaves the watcher record with the read callback
absent when the descriptor is negative and otherwise unchanged, the timeout callback
absent when the timeout is `TIMEOUT_FOREVER` and otherwise unchanged, and `userarg`
unchanged; and when the call returns `GOOD`, a readiness watch was armed iff the read
callback is present in the record afterwards, and a timer was armed iff the timeout
callback is present in the record afterwards. -/
theorem schedule_read_rewrites_record (T : Nat) (ext : getdns_libev) (fd : Int)
    (timeout : Nat) (p : Addr) (e : getdns_eventloop_event) (w : World) :
    (getdns_libev_schedule_read T ext fd timeout p e w).el_ev.read_cb
        = (if fd < 0 then none else e.read_cb)
      ∧ (getdns_libev_schedule_read T ext fd timeout p e w).el_ev.timeout_cb
        = (if timeout = T then none else e.timeout_cb)
      ∧ (getdns_libev_schedule_read T ext fd timeout p e w).el_ev.userarg = e.userarg
      ∧ ((getdns_libev_schedule_read T ext fd timeout p e w).ret = getdns_return_t.GOOD →
          (getdns_libev_schedule_read T ext fd timeout p e w).world.ios
              = w.ios ++
                (if (getdns_libev_schedule_read T ext fd timeout p e w).el_ev.read_cb ≠ none
                  then [{ loop := ext.loop, w := w.next, fd := fd, data := p }] else [])
            ∧ (getdns_libev_schedule_read T ext fd timeout p e w).world.timers
              = w.timers ++
                (if (getdns_libev_schedule_read T ext fd timeout p e w).el_ev.timeout_cb
                    ≠ none
                  then [{ loop := ext.loop, w := w.next, ms := timeout, data := p }]
                  else [])) := by
  by_cases hs : (rewritten T fd timeout e).read_cb = none
      ∧ (rewritten T fd timeout e).timeout_cb = none
  · rw [schedule_read_noop_path T ext fd timeout p e w hs]
    refine ⟨rfl, rfl, rfl, fun _ => ?_⟩
    simp [hs.1, hs.2]
  · by_cases hb : w.budget = 0
    · rw [schedule_read_nomem_path T ext fd timeout p e w hs hb]
      refine ⟨rfl, rfl, rfl, fun h => ?_⟩
      simp at h
    · rw [schedule_read_armed_path T ext fd timeout p e w hs hb]
      refine ⟨rfl, rfl, rfl, fun _ => ?_⟩
      simp [armedWorld]

/-- Witness for C10: a read-and-timeout watcher scheduled
with descriptor `-1`: the read callback is dropped from the record and only the timer
is armed. -/
theorem schedule_read_rewrites_record_witness :
    (getdns_libev_schedule_read forever64 ext0 (-1) 100 7 evBoth (emptyWorld 1)).ret
        = getdns_return_t.GOOD
      ∧ (getdns_libev_schedule_read forever64 ext0 (-1) 100 7 evBoth (emptyWorld 1)).el_ev.read_cb
        = none
      ∧ (getdns_libev_schedule_read forever64 ext0 (-1) 100 7 evBoth (emptyWorld 1)).world.ios
        = []
      ∧ (getdns_libev_schedule_read forever64 ext0 (-1) 100 7 evBoth (emptyWorld 1)).world.timers
        = [{ loop := some 1, w := 100, ms := 100, data := 7 }] :=
  ⟨by decide,
   (schedule_read_rewrites_record forever64 ext0 (-1) 100 7 evBoth (emptyWorld 1)).1,
   ((schedule_read_rewrites_record forever64 ext0 (-1) 100 7 evBoth (emptyWorld 1)).2.2.2
      (by decide)).1,
   ((schedule_read_rewrites_record forever64 ext0 (-1) 100 7 evBoth (emptyWorld 1)).2.2.2
      (by decide)).2⟩

end Libev
